import Mathlib

/-!
Verification development for src/Feature_Selection.py.

The script loads a delimited feature table, normalizes the class label
column, optionally masks cross-validation folds, dispatches one of five
feature-selection strategies, and writes the selected feature names.
The statistical fits (random forest importances, chi2 scores, Relief
weights) are external library calls; they enter the embedding as explicit
inputs (importance and score vectors), while everything the script itself
computes (slicing, index translation, contingency counts, the Fisher
exact p-value formula of scipy, list output) is embedded directly.
-/

namespace FeatureSelection

/-- A cell value of a pandas dataframe: an integer, a string, or a missing
value (NaN). -/
inductive Val where
  | int : Int → Val
  | str : String → Val
  | na : Val
deriving DecidableEq

/-- An in-memory dataframe: a header of column names and rows of cell
values. The example-identifier index column (consumed by read_csv with
index_col 0) is not part of the header, matching the script, whose column
0 after loading is the Class column. -/
structure Table where
  header : List String
  rows : List (List Val)
deriving DecidableEq

/-- Embedding of SaveTopFeats (src lines 44 to 53): it tries
top.remove(Class) — which deletes the first occurrence of the literal
name Class and is a silent no-op when absent — and then writes one name
per line. List.erase has exactly that first-occurrence-or-identity
semantics; the returned list is the sequence of lines written. -/
def SaveTopFeats (top : List String) : List String :=
  top.erase "Class"

/-- Insert index i into an index list kept in decreasing order of
importance. -/
def insertIdxDesc (imp : List ℚ) (i : ℕ) : List ℕ → List ℕ
  | [] => [i]
  | j :: rest =>
      if imp.getD j 0 < imp.getD i 0 then i :: j :: rest
      else j :: insertIdxDesc imp i rest

/-- Embedding of np.argsort(importances)[::-1] (src line 90): the indices
0 .. len-1 ordered by decreasing importance. Ties get one fixed order
here, as numpy likewise fixes some unspecified tie order. -/
def argsortDesc (imp : List ℚ) : List ℕ :=
  (List.range imp.length).foldr (insertIdxDesc imp) []

theorem insertIdxDesc_perm (imp : List ℚ) (i : ℕ) (l : List ℕ) :
    List.Perm (insertIdxDesc imp i l) (i :: l) := by
  induction l with
  | nil => simp [insertIdxDesc]
  | cons j rest ih =>
      by_cases h : imp.getD j 0 < imp.getD i 0
      · simp only [insertIdxDesc, if_pos h]
        exact List.Perm.refl _
      · simp only [insertIdxDesc, if_neg h]
        exact (ih.cons j).trans (List.Perm.swap i j rest)

theorem argsortDesc_perm (imp : List ℚ) :
    List.Perm (argsortDesc imp) (List.range imp.length) := by
  have key : ∀ l : List ℕ, List.Perm (l.foldr (insertIdxDesc imp) []) l := by
    intro l
    induction l with
    | nil => rfl
    | cons a l ih => exact (insertIdxDesc_perm imp a _).trans (ih.cons a)
  exact key _

theorem map_getD_range {α : Type} (l : List α) (d : α) :
    (List.range l.length).map (fun i => l.getD i d) = l := by
  induction l with
  | nil => rfl
  | cons a l ih =>
      rw [List.length_cons, List.range_succ_eq_map, List.map_cons, List.map_map]
      have h : (fun i => (a :: l).getD i d) ∘ Nat.succ = fun i => l.getD i d := by
        funext i
        simp [List.getD_cons_succ]
      rw [h, ih]
      simp [List.getD_cons_zero]

/-- Embedding of the body of the per-n loop of DecisionTree
(src lines 92 to 104): take the first n_size entries of the descending
argsort of the fitted importances, shift each index by one, prepend
column index 0, map indices to column names, and pass the names through
SaveTopFeats. cols is the dataframe header (column 0 is Class), imp the
importance vector the fitted forest returned for columns 1 onward. -/
def DecisionTreeTop (cols : List String) (imp : List ℚ) (n_size : ℕ) :
    List String :=
  SaveTopFeats
    ((0 :: ((argsortDesc imp).take n_size).map (fun i => i + 1)).map
      (fun i => cols.getD i ""))

/-- Embedding of DecisionTree (src lines 58 to 104): the forest is fitted
once (its importances are the input imp), and the loop writes one output
per requested n_size. The result pairs each n_size with the name list
written for it. -/
def DecisionTree (cols : List String) (imp : List ℚ) (n : List ℕ) :
    List (ℕ × List String) :=
  n.map (fun n_size => (n_size, DecisionTreeTop cols imp n_size))

/-- Embedding of the body of the per-n loop of Relief
(src lines 160 to 164): the sorted-by-decreasing-weight feature names
(index of the imp_top dataframe) sliced to the first n_size. The slice is
a numpy array, so the remove call inside SaveTopFeats raises
AttributeError and is swallowed: the list is written unchanged. -/
def ReliefTop (cols : List String) (imp : List ℚ) (n_size : ℕ) :
    List String :=
  ((argsortDesc imp).map (fun i => (cols.erase "Class").getD i "")).take n_size

/-- Embedding of Relief (src lines 142 to 164): ReliefF is fitted once
(its weights are the input imp, indexed like list(df) minus Class), then
one output per requested n_size. -/
def Relief (cols : List String) (imp : List ℚ) (n : List ℕ) :
    List (ℕ × List String) :=
  n.map (fun n_size => (n_size, ReliefTop cols imp n_size))

/-- The k argument handed to SelectKBest: scikit-learn accepts an integer
(or the string all); anything else fails inside fit when _check_params
compares k with the feature count. -/
inductive KArg where
  | nat : ℕ → KArg
  | list : List ℕ → KArg
deriving DecidableEq

/-- Embedding of SelectKBest(chi2, k).fit_transform followed by
get_support(indices True): for an integer k within range, the ascending
indices of the k best-scoring features; for a list k, the TypeError that
scikit-learn raises when comparing a list with an integer in
_check_params. -/
def selectKBestIdx (scores : List ℚ) : KArg → Except String (List ℕ)
  | KArg.nat k =>
      if k ≤ scores.length then
        Except.ok ((List.range scores.length).filter
          (fun i => ((argsortDesc scores).take k).contains i))
      else Except.error "ValueError: k exceeds number of features"
  | KArg.list _ =>
      Except.error "TypeError: comparison of list with int in SelectKBest"

/-- Embedding of Chi2 (src lines 108 to 139). Faithful to the source slip
at line 124: inside the loop over n_size, the selector is constructed
with k equal to n, the WHOLE list of requested retain counts, not the
loop variable n_size; the fit is also re-run on every iteration rather
than shared. scores is the chi2 score vector for columns 1 onward. -/
def Chi2 (cols : List String) (scores : List ℚ) (n : List ℕ) :
    Except String (List (ℕ × List String)) :=
  n.mapM (fun n_size => do
    let idx ← selectKBestIdx scores (KArg.list n)
    pure (n_size,
      SaveTopFeats ((0 :: idx.map (fun i => i + 1)).map
        (fun i => cols.getD i ""))))

/-- Index of the first column with the given name (List.findIdx, like the
positional lookup pandas performs for a unique column label). -/
def colIdx (df : Table) (c : String) : ℕ :=
  df.header.findIdx (fun h => h == c)

/-- Embedding of one cell of df.groupby([CL, k]).size() followed by the
guarded .iloc[0] lookup (src lines 215 to 231): the number of rows whose
CL column holds c and whose k column holds v. A combination with no
matching rows simply counts 0, which is exactly what the try/except
around the empty .iloc[0] lookup produces. -/
def countCell (df : Table) (ci ki : ℕ) (c v : Val) : ℕ :=
  (df.rows.filter
    (fun r => r.getD ci Val.na == c && r.getD ki Val.na == v)).length

/-- The one-sided (alternative greater) Fisher exact test p-value of the
2x2 table [[tp, fn], [fp, tn]], as scipy.stats.fisher_exact computes it:
the hypergeometric tail probability of observing tp or more in the
top-left cell with all margins fixed. -/
def fisherGreaterP (tp fn fp tn : ℕ) : ℚ :=
  ((List.range (min (tp + fn) (tp + fp) + 1 - tp)).map
      (fun j =>
        (((tp + fn).choose (tp + j) *
            (fp + tn).choose (tp + fp - (tp + j)) : ℕ) : ℚ))).sum /
    (((tp + fn + fp + tn).choose (tp + fp) : ℕ) : ℚ)

/-- The p-value the FET loop computes for feature k (src lines 215 to
233): contingency cells TP = (pos, 1), FN = (pos, 0), FP = (neg, 1),
TN = (neg, 0), assembled as [[TP, FN], [FP, TN]] with alternative
greater. -/
def fetP (df : Table) (CL k : String) (pos neg : Val) : ℚ :=
  fisherGreaterP
    (countCell df (colIdx df CL) (colIdx df k) pos (Val.int 1))
    (countCell df (colIdx df CL) (colIdx df k) pos (Val.int 0))
    (countCell df (colIdx df CL) (colIdx df k) neg (Val.int 1))
    (countCell df (colIdx df CL) (colIdx df k) neg (Val.int 0))

/-- Embedding of FET (src lines 203 to 239): kmers is the header minus
the first occurrence of the global CL (list.remove raises ValueError when
CL is absent); enriched starts as [CL] and collects every feature whose
p-value is at most PARAMETER, in header order; SaveTopFeats then writes
the list after deleting the first literal Class entry. -/
def FET (CL : String) (df : Table) (PARAMETER : ℚ) (pos neg : Val) :
    Except String (List String) :=
  if CL ∈ df.header then
    Except.ok (SaveTopFeats
      (CL :: (df.header.erase CL).filter
        (fun k => decide (fetP df CL k pos neg ≤ PARAMETER))))
  else Except.error "ValueError: remove argument not in list"

/-- The per-cell label recoding of src lines 320 to 321: first replace
the positive token with integer 1 over the whole column, then replace the
negative token with integer 0 over the result. -/
def recodeVal (pos neg : Val) (v : Val) : Val :=
  if (if v = pos then Val.int 1 else v) = neg then Val.int 0
  else if v = pos then Val.int 1 else v

/-- Apply the label recoding to the cells of the columns named Class,
leaving every other cell unchanged. -/
def recodeRow (pos neg : Val) (hdr : List String) (r : List Val) : List Val :=
  List.zipWith (fun h v => if h = "Class" then recodeVal pos neg v else v)
    hdr r

/-- Embedding of the recode statements (src lines 319 to 321) applied to
a whole table. -/
def recodeT (pos neg : Val) (t : Table) : Table :=
  Table.mk t.header (t.rows.map (recodeRow pos neg t.header))

/-- Embedding of src lines 316 to 317: when the class-file column name
is not the literal Class, rename that column to Class; otherwise leave
the table untouched. -/
def renameT (cc : String) (t : Table) : Table :=
  if cc = "Class" then t
  else Table.mk (t.header.map (fun h => if h = cc then "Class" else h)) t.rows

/-- Embedding of df.dropna(axis 0, how any) (src line 323): keep exactly
the rows without a missing value in any column. -/
def dropnaT (t : Table) : Table :=
  Table.mk t.header (t.rows.filter (fun r => decide (Val.na ∉ r)))

/-- The Label Normalizer step (src lines 316 to 323) in classification
mode: rename the configured class column to Class, recode the positive
and negative tokens to 1 and 0, then drop rows with missing values. -/
def normalize (cc : String) (pos neg : Val) (t : Table) : Table :=
  dropnaT (recodeT pos neg (renameT cc t))

/-- Embedding of df.loc[:, names] column selection (src line 337):
pandas raises KeyError when any requested label is missing from the
columns; otherwise it returns the named columns in the requested order
(duplicated if a name is requested twice). -/
def locCols (df : Table) (names : List String) : Except String Table :=
  if _h : ∀ c ∈ names, c ∈ df.header then
    Except.ok (Table.mk names
      (df.rows.map (fun r => names.map (fun c => r.getD (colIdx df c) Val.na))))
  else Except.error "KeyError: some requested labels are not in the columns"

/-- The feature whitelist filter (src lines 333 to 337): prepend Class to
the names read from the file and select exactly those columns. -/
def whitelistFilter (df : Table) (feats : List String) : Except String Table :=
  locCols df ("Class" :: feats)

/-- A row of the table during cross-validation masking: example
identifier (the dataframe index), class value, feature values. -/
structure CVRow where
  id : String
  cls : Val
  feats : List Val
deriving DecidableEq

/-- Embedding of src line 349: overwrite the Class value with the
sentinel unk for every example whose fold id for the chosen replicate
equals 5. fold gives the cv column of the fold-assignment table for the
replicate, aligned by example identifier. -/
def maskFold (fold : String → ℕ) (rows : List CVRow) : List CVRow :=
  rows.map (fun r =>
    if fold r.id = 5 then CVRow.mk r.id (Val.str "unk") r.feats else r)

/-- Embedding of src lines 352 to 354: when any Class value equals the
sentinel unk, keep only the rows whose Class differs from it. -/
def removeUnknown (rows : List CVRow) : List CVRow :=
  if rows.any (fun r => r.cls == Val.str "unk") then
    rows.filter (fun r => !(r.cls == Val.str "unk"))
  else rows

/-- Embedding of src lines 352 to 354 on a Table: the unk filter reads
the Class column positionally. -/
def dropUnknownT (t : Table) : Table :=
  if t.rows.any (fun r => r.getD (colIdx t "Class") Val.na == Val.str "unk") then
    Table.mk t.header
      (t.rows.filter (fun r => !(r.getD (colIdx t "Class") Val.na == Val.str "unk")))
  else t

/-- The data-preparation pipeline of the main block when no -df_class
flag is given (src lines 254 to 354, without whitelist and
cross-validation). class_col keeps its default value Class (src line
256) because only the -df_class branch (src line 308) overwrites it, so
the rename at lines 316 to 317 is skipped no matter what -class said:
the -class value CL never reaches this code. In classification mode the
recoding reads df[Class] and raises KeyError when no column is named
Class; otherwise the unknown-value filter at line 353 performs the same
failing access. -/
def mainPrepare (TYPE : String) (pos neg : Val) (df : Table) :
    Except String Table :=
  if TYPE.toLower = "c" then
    if "Class" ∈ df.header then
      if "Class" ∈ (dropnaT (recodeT pos neg df)).header then
        Except.ok (dropUnknownT (dropnaT (recodeT pos neg df)))
      else Except.error "KeyError: Class"
    else Except.error "KeyError: Class"
  else
    if "Class" ∈ (dropnaT df).header then
      Except.ok (dropUnknownT (dropnaT df))
    else Except.error "KeyError: Class"

/-- A full run with the RandomForest method and no -df_class flag: the
prepared table feeds DecisionTree, whose per-n outputs are the files
written. An error anywhere in preparation means no output is written. -/
def mainRun (TYPE : String) (pos neg : Val) (imp : List ℚ) (n : List ℕ)
    (df : Table) : Except String (List (ℕ × List String)) :=
  match mainPrepare TYPE pos neg df with
  | Except.ok d => Except.ok (DecisionTree d.header imp n)
  | Except.error e => Except.error e

/-- C1. The claim states that RandomForest, Chi2 and Relief each select
exactly N feature names for every retain-count N at most the feature
count, with nested top-N sets. The Chi2 function violates this: at src
line 124 the selector is built with k equal to n, the whole list of
retain counts, instead of the loop variable n_size, so scikit-learn
raises a TypeError inside fit and no selection is produced at all. Here
a prepared table with three features and the single retain-count 2
(which satisfies N at most the feature count) already fails. -/
theorem C1_chi2_rejects_list_k :
    Chi2 ["Class", "f1", "f2", "f3"] [1, 2, 3] [2] =
      Except.error "TypeError: comparison of list with int in SelectKBest" :=
  rfl

/-- C4. The claim states that all three ranked selectors fit once and
share the ranking across the requested retain-counts, with per-N outputs
equal to separate single-N runs. Chi2 instead re-runs the fit inside the
per-N loop (src lines 122 to 125) and hands the whole retain-count list
to SelectKBest as k, so a batch request for the counts 1 and 2 produces
an error instead of two sliced outputs. -/
theorem C4_chi2_batch_request_errors :
    Chi2 ["Class", "f1", "f2", "f3"] [1, 2, 3] [1, 2] =
      Except.error "TypeError: comparison of list with int in SelectKBest" :=
  rfl

/-- C10 counterexample. The claim states that two DecisionTree runs with
identical arguments select the same names. The estimator at src line 73
is built without random_state, so by the documented behavior of
scikit-learn each run draws a fresh ambient seed and may return different
importance vectors for identical inputs. Two such admissible importance
vectors for the same two-feature table produce different selections, so
the arguments alone do not determine the output. -/
theorem C10_counterexample :
    DecisionTreeTop ["Class", "f1", "f2"] [1, 0] 1 ≠
      DecisionTreeTop ["Class", "f1", "f2"] [0, 1] 1 := by
  decide

/-- C10 amended: everything the script computes after the library fit is
deterministic — whenever two runs obtain importance vectors with the same
descending argsort (for instance under a fixed random_state), they select
exactly the same name list for every retain-count. -/
theorem C10_deterministic_after_fit (cols : List String) (imp1 imp2 : List ℚ)
    (n : ℕ) (h : argsortDesc imp1 = argsortDesc imp2) :
    DecisionTreeTop cols imp1 n = DecisionTreeTop cols imp2 n := by
  unfold DecisionTreeTop
  rw [h]

theorem C10_deterministic_after_fit_witness :
    argsortDesc [(3 : ℚ), 1] = argsortDesc [(4 : ℚ), 2] ∧
      DecisionTreeTop ["Class", "f1", "f2"] [(3 : ℚ), 1] 1 =
        DecisionTreeTop ["Class", "f1", "f2"] [(4 : ℚ), 2] 1 :=
  ⟨by decide,
    C10_deterministic_after_fit ["Class", "f1", "f2"] [(3 : ℚ), 1]
      [(4 : ℚ), 2] 1 (by decide)⟩

theorem dt_top_clamped (feats : List String) (imp : List ℚ) (n : ℕ)
    (hlen : imp.length = feats.length) (hn : feats.length < n) :
    DecisionTreeTop ("Class" :: feats) imp n =
      (argsortDesc imp).map (fun i => feats.getD i "") := by
  have hal : (argsortDesc imp).length = feats.length := by
    rw [(argsortDesc_perm imp).length_eq, List.length_range, hlen]
  unfold DecisionTreeTop SaveTopFeats
  rw [List.take_of_length_le (by omega)]
  rw [List.map_cons, List.getD_cons_zero, List.erase_cons_head, List.map_map]
  exact List.map_congr_left (fun i _ => List.getD_cons_succ)

/-- C8. When the requested retain-count exceeds the feature count, the
python slice [0:n] clamps: DecisionTree and Relief both select every
feature (the written list is a permutation of the feature names) and no
error is raised. -/
theorem C8_overlong_n_selects_all (feats : List String) (imp : List ℚ)
    (n : ℕ) (hlen : imp.length = feats.length) (hn : feats.length < n) :
    List.Perm (DecisionTreeTop ("Class" :: feats) imp n) feats ∧
      List.Perm (ReliefTop ("Class" :: feats) imp n) feats := by
  have hperm : List.Perm ((argsortDesc imp).map (fun i => feats.getD i ""))
      feats := by
    have h1 := (argsortDesc_perm imp).map (fun i => feats.getD i "")
    rw [hlen, map_getD_range] at h1
    exact h1
  constructor
  · rw [dt_top_clamped feats imp n hlen hn]
    exact hperm
  · unfold ReliefTop
    rw [List.erase_cons_head]
    rw [List.take_of_length_le]
    · exact hperm
    · rw [List.length_map, (argsortDesc_perm imp).length_eq,
        List.length_range, hlen]
      omega

theorem C8_overlong_n_selects_all_witness :
    ([(1 : ℚ), 2].length = ["a", "b"].length ∧ ["a", "b"].length < 3) ∧
      (List.Perm (DecisionTreeTop ("Class" :: ["a", "b"]) [(1 : ℚ), 2] 3)
          ["a", "b"] ∧
        List.Perm (ReliefTop ("Class" :: ["a", "b"]) [(1 : ℚ), 2] 3)
          ["a", "b"]) :=
  ⟨⟨by decide, by decide⟩,
    C8_overlong_n_selects_all ["a", "b"] [(1 : ℚ), 2] 3 (by decide) (by decide)⟩

/-- C2 counterexample. The claim states that the written name list never
contains the label column name, even when the user supplies a label name
other than Class. SaveTopFeats only deletes the literal name Class, and
FET seeds its output list with the global CL (src line 210), so a run
whose -class value is label (on a table that also has a recodable column
for the main block to chew on) writes the label column name itself as the
first line of the output. -/
theorem C2_counterexample :
    "label" ∈ ((FET "label" (Table.mk ["label", "f1"]
        [[Val.int 1, Val.int 1]]) 1 (Val.int 1) (Val.int 0)).toOption.getD
      []) := by
  decide

/-- C2 amended: the written name list never contains the LITERAL column
name Class; when the supplied label name CL differs from Class and FET
runs, the list instead starts with CL itself (the label name leaks). -/
theorem C2_amended (CL : String) (df : Table) (p : ℚ) (pos neg : Val)
    (hnd : df.header.Nodup) (hCL : CL ∈ df.header) :
    ∃ out, FET CL df p pos neg = Except.ok out ∧ "Class" ∉ out ∧
      (CL ≠ "Class" → out.head? = some CL) := by
  have hopen : FET CL df p pos neg = Except.ok (SaveTopFeats
      (CL :: (df.header.erase CL).filter
        (fun k => decide (fetP df CL k pos neg ≤ p)))) := by
    unfold FET
    rw [if_pos hCL]
  by_cases hc : CL = "Class"
  · refine ⟨_, hopen, ?_, ?_⟩
    · subst hc
      unfold SaveTopFeats
      rw [List.erase_cons_head]
      intro hmem
      exact hnd.not_mem_erase (List.mem_filter.mp hmem).1
    · intro hne
      exact absurd hc hne
  · refine ⟨_, hopen, ?_, ?_⟩
    · unfold SaveTopFeats
      rw [List.erase_cons_tail (by simpa using hc)]
      intro hmem
      rcases List.mem_cons.mp hmem with h1 | h1
      · exact hc h1.symm
      · exact (List.Nodup.filter _ (hnd.erase CL)).not_mem_erase h1
    · intro hne
      unfold SaveTopFeats
      rw [List.erase_cons_tail (by simpa using hc)]
      rfl

theorem C2_amended_witness :
    ∃ out, FET "Class" (Table.mk ["Class", "f1"] [[Val.int 1, Val.int 1]]) 1
        (Val.int 1) (Val.int 0) = Except.ok out ∧ "Class" ∉ out ∧
      ("Class" ≠ "Class" → out.head? = some "Class") :=
  C2_amended "Class" (Table.mk ["Class", "f1"] [[Val.int 1, Val.int 1]]) 1
    (Val.int 1) (Val.int 0) (by decide) (by decide)

/-- C3. FET retains a feature exactly when the one-sided (alternative
greater) Fisher exact p-value of its 2x2 contingency table of (label,
feature-value) counts is at most the threshold; contingency combinations
with no matching rows count as 0 (the try/except around the empty iloc
lookup), never an error. -/
theorem C3_fet_retains_iff (df : Table) (CL k : String) (pos neg : Val)
    (p : ℚ) (hCL : CL ∈ df.header)
    (hk : k ∈ df.header) (hkCL : k ≠ CL) (hkC : k ≠ "Class") :
    ∃ out, FET CL df p pos neg = Except.ok out ∧
      (k ∈ out ↔ fetP df CL k pos neg ≤ p) := by
  have hopen : FET CL df p pos neg = Except.ok (SaveTopFeats
      (CL :: (df.header.erase CL).filter
        (fun k => decide (fetP df CL k pos neg ≤ p)))) := by
    unfold FET
    rw [if_pos hCL]
  refine ⟨_, hopen, ?_⟩
  unfold SaveTopFeats
  rw [List.mem_erase_of_ne hkC]
  constructor
  · intro hmem
    rcases List.mem_cons.mp hmem with h1 | h1
    · exact absurd h1 hkCL
    · exact of_decide_eq_true (List.mem_filter.mp h1).2
  · intro hle
    exact List.mem_cons_of_mem _ (List.mem_filter.mpr
      ⟨(List.mem_erase_of_ne hkCL).mpr hk, decide_eq_true hle⟩)

theorem C3_fet_retains_iff_witness :
    ∃ out, FET "Class" (Table.mk ["Class", "f1"]
        [[Val.int 1, Val.int 1], [Val.int 0, Val.int 0]]) 1 (Val.int 1)
        (Val.int 0) = Except.ok out ∧
      ("f1" ∈ out ↔ fetP (Table.mk ["Class", "f1"]
          [[Val.int 1, Val.int 1], [Val.int 0, Val.int 0]]) "Class" "f1"
            (Val.int 1) (Val.int 0) ≤ 1) :=
  C3_fet_retains_iff (Table.mk ["Class", "f1"]
      [[Val.int 1, Val.int 1], [Val.int 0, Val.int 0]]) "Class" "f1"
    (Val.int 1) (Val.int 0) 1 (by decide) (by decide) (by decide) (by decide)

theorem maskFold_cls_of_fold5 (fold : String → ℕ) (rows : List CVRow)
    (r : CVRow) (hr : r ∈ maskFold fold rows) (h5 : fold r.id = 5) :
    r.cls = Val.str "unk" := by
  rcases List.mem_map.mp hr with ⟨r0, _, heq⟩
  by_cases hf : fold r0.id = 5
  · rw [if_pos hf] at heq
    rw [← heq]
  · rw [if_neg hf] at heq
    rw [← heq] at h5
    exact absurd h5 hf

/-- C5. After masking replicate r with held-out fold id 5 (overwrite the
Class of every example whose fold id is 5 with the sentinel unk, then
remove rows whose Class is the sentinel), no row whose fold id was 5
remains in the table handed to the selector. -/
theorem C5_heldout_fold_removed (fold : String → ℕ) (rows : List CVRow)
    (r : CVRow) (hr : r ∈ removeUnknown (maskFold fold rows)) :
    fold r.id ≠ 5 := by
  intro h5
  unfold removeUnknown at hr
  by_cases ha : (maskFold fold rows).any (fun r => r.cls == Val.str "unk")
      = true
  · rw [if_pos ha] at hr
    have h1 := List.mem_filter.mp hr
    have h2 := maskFold_cls_of_fold5 fold rows r h1.1 h5
    simp [h2] at h1
  · rw [if_neg ha] at hr
    have h2 := maskFold_cls_of_fold5 fold rows r hr h5
    exact ha (List.any_eq_true.mpr ⟨r, hr, by simp [h2]⟩)

theorem C5_heldout_fold_removed_witness :
    (fun _ : String => 3) "e1" ≠ 5 :=
  C5_heldout_fold_removed (fun _ => 3) [CVRow.mk "e1" (Val.int 1) []]
    (CVRow.mk "e1" (Val.int 1) []) (by decide)

/-- C6 counterexample. The claim states the label normalizer is
idempotent for every choice of positive and negative tokens. It is not:
the recoding replaces the positive token by the integer 1 and the
negative token by the integer 0 over the recoded column, so with positive
token 0 and negative token 5 a class value 5 becomes 0 on the first pass
and that 0, now equal to the positive token, becomes 1 on the second. -/
theorem C6_counterexample :
    normalize "Class" (Val.int 0) (Val.int 5)
        (normalize "Class" (Val.int 0) (Val.int 5)
          (Table.mk ["Class"] [[Val.int 5]])) ≠
      normalize "Class" (Val.int 0) (Val.int 5)
        (Table.mk ["Class"] [[Val.int 5]]) := by
  decide

theorem recodeVal_idem (pos neg : Val) (hp : pos ≠ Val.int 0) (v : Val) :
    recodeVal pos neg (recodeVal pos neg v) = recodeVal pos neg v := by
  unfold recodeVal
  split_ifs <;> simp_all

theorem recodeRow_idem (pos neg : Val) (hp : pos ≠ Val.int 0)
    (hdr : List String) (r : List Val) :
    recodeRow pos neg hdr (recodeRow pos neg hdr r) =
      recodeRow pos neg hdr r := by
  unfold recodeRow
  induction hdr generalizing r with
  | nil => simp
  | cons h hs ih =>
      cases r with
      | nil => simp
      | cons v vs =>
          simp only [List.zipWith_cons_cons]
          rw [ih]
          by_cases hc : h = "Class"
          · simp [hc, recodeVal_idem pos neg hp]
          · simp [hc]

theorem map_eq_self_of_mem {α : Type} (f : α → α) (l : List α)
    (h : ∀ x ∈ l, f x = x) : l.map f = l := by
  induction l with
  | nil => rfl
  | cons a l ih =>
      rw [List.map_cons, h a (List.mem_cons_self a l),
        ih (fun x hx => h x (List.mem_cons_of_mem a hx))]

theorem rename_fun_idem (cc a : String) :
    (if (if a = cc then "Class" else a) = cc then "Class"
      else if a = cc then "Class" else a) = if a = cc then "Class" else a := by
  by_cases ha : a = cc
  · simp [ha]
  · simp [ha]

theorem renameT_after_normalize (cc : String) (pos neg : Val) (t : Table) :
    renameT cc (normalize cc pos neg t) = normalize cc pos neg t := by
  by_cases hcc : cc = "Class"
  · unfold renameT
    rw [if_pos hcc]
  · unfold normalize dropnaT recodeT renameT
    rw [if_neg hcc]
    simp only
    rw [if_neg hcc]
    simp only
    rw [List.map_map]
    have hmap : List.map ((fun h => if h = cc then "Class" else h) ∘
        fun h => if h = cc then "Class" else h) t.header =
        List.map (fun h => if h = cc then "Class" else h) t.header :=
      List.map_congr_left (fun a _ => rename_fun_idem cc a)
    rw [hmap]

theorem recodeT_after_normalize (cc : String) (pos neg : Val)
    (hp : pos ≠ Val.int 0) (t : Table) :
    recodeT pos neg (normalize cc pos neg t) = normalize cc pos neg t := by
  unfold normalize dropnaT recodeT
  simp only
  congr 1
  apply map_eq_self_of_mem
  intro x hx
  have hx2 := (List.mem_filter.mp hx).1
  rcases List.mem_map.mp hx2 with ⟨r0, _, heq⟩
  rw [← heq]
  exact recodeRow_idem pos neg hp _ r0

theorem dropnaT_idem (t : Table) : dropnaT (dropnaT t) = dropnaT t := by
  unfold dropnaT
  simp only
  congr 1
  exact List.filter_eq_self.mpr (fun a ha => (List.mem_filter.mp ha).2)

/-- C6 amended: the label normalizer is idempotent whenever the positive
token is not the integer 0 that the negative token gets recoded to. Every
configuration the command line can reach satisfies this (the defaults are
the integers 1 and 0, and any -pos value is a string), so only the
token pair with positive token 0 breaks idempotence. -/
theorem C6_normalize_idem (cc : String) (pos neg : Val)
    (hp : pos ≠ Val.int 0) (t : Table) :
    normalize cc pos neg (normalize cc pos neg t) =
      normalize cc pos neg t := by
  conv_lhs => rw [normalize, renameT_after_normalize cc pos neg t,
    recodeT_after_normalize cc pos neg hp t]
  rw [show normalize cc pos neg t =
    dropnaT (recodeT pos neg (renameT cc t)) from rfl, dropnaT_idem]

theorem C6_normalize_idem_witness :
    Val.int 1 ≠ Val.int 0 ∧
      normalize "Class" (Val.int 1) (Val.int 0)
          (normalize "Class" (Val.int 1) (Val.int 0)
            (Table.mk ["Class"] [[Val.int 5], [Val.na]])) =
        normalize "Class" (Val.int 1) (Val.int 0)
          (Table.mk ["Class"] [[Val.int 5], [Val.na]]) :=
  ⟨by decide,
    C6_normalize_idem "Class" (Val.int 1) (Val.int 0) (by decide)
      (Table.mk ["Class"] [[Val.int 5], [Val.na]])⟩

/-- C7. The whitelist filter keeps exactly the label column followed by
the named features in file order, and when a named feature is missing
from the table the run fails with a schema-kind error (the KeyError that
pandas loc raises for missing column labels) instead of silently ignoring
the name. -/
theorem C7_whitelist (df : Table) (feats : List String) :
    ((∀ c ∈ "Class" :: feats, c ∈ df.header) →
      ∃ t, whitelistFilter df feats = Except.ok t ∧
        t.header = "Class" :: feats) ∧
    (∀ c, c ∈ feats → c ∉ df.header →
      ∃ msg, whitelistFilter df feats = Except.error msg) := by
  constructor
  · intro hall
    unfold whitelistFilter locCols
    rw [dif_pos hall]
    exact ⟨_, rfl, rfl⟩
  · intro c hc hnot
    unfold whitelistFilter locCols
    rw [dif_neg (fun hall => hnot (hall c (List.mem_cons_of_mem _ hc)))]
    exact ⟨_, rfl⟩

theorem C7_whitelist_witness :
    (∃ t, whitelistFilter (Table.mk ["Class", "a", "b"] []) ["b"] =
        Except.ok t ∧ t.header = "Class" :: ["b"]) ∧
    (∃ msg, whitelistFilter (Table.mk ["Class", "a", "b"] []) ["z"] =
        Except.error msg) :=
  ⟨(C7_whitelist (Table.mk ["Class", "a", "b"] []) ["b"]).1 (by decide),
    (C7_whitelist (Table.mk ["Class", "a", "b"] []) ["z"]).2 "z" (by decide)
      (by decide)⟩

/-- C9. When -class names a column other than Class and no -df_class is
given, the rename at src lines 316 to 317 is skipped because it is keyed
on class_col, which only the -df_class branch ever changes from its
default Class; so on a table without a literal Class column the label
recoding (classification mode) or the unknown-row filter (any mode)
accesses the missing Class column and the run errors before any selection
output is written. The -class value never enters mainPrepare at all. -/
theorem C9_missing_class_fails (TYPE : String) (pos neg : Val)
    (imp : List ℚ) (n : List ℕ) (df : Table)
    (hc : "Class" ∉ df.header) :
    ∃ msg, mainRun TYPE pos neg imp n df = Except.error msg := by
  unfold mainRun mainPrepare
  by_cases ht : TYPE.toLower = "c"
  · rw [if_pos ht, if_neg hc]
    exact ⟨_, rfl⟩
  · rw [if_neg ht]
    have hc2 : "Class" ∉ (dropnaT df).header := hc
    rw [if_neg hc2]
    exact ⟨_, rfl⟩

theorem C9_missing_class_fails_witness :
    ∃ msg, mainRun "c" (Val.int 1) (Val.int 0) [1] [1]
        (Table.mk ["label", "f1"] [[Val.int 1, Val.int 1]]) =
      Except.error msg :=
  C9_missing_class_fails "c" (Val.int 1) (Val.int 0) [1] [1]
    (Table.mk ["label", "f1"] [[Val.int 1, Val.int 1]]) (by decide)

end FeatureSelection
